import Mathlib

/-!
Shallow embedding of `src/pages/statistics/GLM_IRLS_Visualizer.js`, a React
component visualizing the IRLS algorithm for GLMs.  The component holds a
single integer cursor (`activeStep`) over a hardcoded list of five step
descriptors, advances it modularly via `nextStep`, sets it directly via a
per-row `onClick`, loads the KaTeX script/stylesheet once via the `useKaTeX`
hook, and renders LaTeX strings with a plain-text fallback on a rendering
exception (the `Latex` component).
-/

/-- Icon element as constructed in the JSX, e.g.
`<Calculator className="w-6 h-6 text-blue-500" />`. -/
structure IconElem where
  component : String
  className : String
deriving Repr, DecidableEq

/-- One step descriptor from the hardcoded `steps` array: fields `id`,
`title`, `icon`, `desc`, `math`. -/
structure Step where
  id : Nat
  title : String
  icon : IconElem
  desc : String
  math : String
deriving Repr, DecidableEq

/-- The hardcoded `steps` array (lines 67-103 of the source). -/
def steps : List Step :=
  [ { id := 1
    , title := "初期化 (Initialization)"
    , icon := { component := "Calculator", className := "w-6 h-6 text-blue-500" }
    , desc := "パラメータの初期値を設定します。"
    , math := "\\beta^{(0)}" }
  , { id := 2
    , title := "線形予測子 & 平均 (Predict)"
    , icon := { component := "TrendingUp", className := "w-6 h-6 text-indigo-500" }
    , desc := "現在のパラメータで予測値を計算します。"
    , math := "\\eta = X\\beta, \\quad \\mu = g^{-1}(\\eta)" }
  , { id := 3
    , title := "作動変数 & 重み (Adjust)"
    , icon := { component := "Scale", className := "w-6 h-6 text-amber-500" }
    , desc := "局所的な直線近似のために、ターゲット変数(z)と重み(W)を計算します。"
    , math := "z, \\quad W" }
  , { id := 4
    , title := "WLSによる更新 (Update)"
    , icon := { component := "RefreshCw", className := "w-6 h-6 text-emerald-500" }
    , desc := "重みつき最小二乗法(WLS)を解いて、パラメータを更新します。"
    , math := "\\beta^{(new)} = (X^T W X)^{-1} X^T W z" }
  , { id := 5
    , title := "収束判定 (Check)"
    , icon := { component := "CheckCircle", className := "w-6 h-6 text-purple-500" }
    , desc := "パラメータの変化が十分に小さければ終了。そうでなければステップ2へ戻ります。"
    , math := "|\\beta^{(new)} - \\beta^{(old)}| < \\epsilon" } ]

/-- The `nextStep` handler on the cursor:
`setActiveStep((prev) => (prev + 1) % steps.length)` (lines 105-107). -/
def nextStepCursor (prev : Nat) : Nat :=
  (prev + 1) % steps.length

/-- The per-row `onClick` handler on the cursor:
`onClick={() => setActiveStep(index)}` (line 131); the previous cursor value
is discarded. -/
def selectStepCursor (j : Nat) (_prev : Nat) : Nat :=
  j

theorem steps_length : steps.length = 5 := rfl

/-- C1: clicking "next" advances the active step index by one modulo 5, and
from the last step (index 4) it wraps to the first (index 0). -/
theorem nextStep_advances_mod5 (i : Nat) (h : i < 5) :
    nextStepCursor i = (i + 1) % 5 ∧ nextStepCursor 4 = 0 := by
  refine ⟨?_, rfl⟩
  simp [nextStepCursor, steps_length]

theorem nextStep_advances_mod5_witness :
    nextStepCursor 4 = (4 + 1) % 5 ∧ nextStepCursor 4 = 0 :=
  nextStep_advances_mod5 4 (by decide)

/-- The two user operations available on the cursor: the "next" button and a
direct click on one of the rendered step rows. -/
inductive Op where
  | next
  | select (j : Nat)
deriving Repr, DecidableEq

/-- Effect of one operation on the cursor. -/
def applyOp (cursor : Nat) : Op → Nat
  | .next => nextStepCursor cursor
  | .select j => selectStepCursor j cursor

/-- An operation the UI can actually emit: a select click only exists for one
of the rendered rows, whose indices come from `steps.map((step, index) => ...)`
and hence are below `steps.length`. -/
def validOp : Op → Bool
  | .next => true
  | .select j => j < steps.length

/-- Cursor after running a sequence of operations from the initial state
`useState(0)` (line 64). -/
def runOps (ops : List Op) : Nat :=
  ops.foldl applyOp 0

theorem applyOp_lt (cursor : Nat) (op : Op) (hc : cursor < steps.length)
    (hop : validOp op = true) : applyOp cursor op < steps.length := by
  cases op with
  | next =>
    simp only [applyOp, nextStepCursor]
    exact Nat.mod_lt _ (Nat.lt_of_le_of_lt (Nat.zero_le _) hc)
  | select j =>
    simpa [applyOp, selectStepCursor, validOp] using hop

theorem foldl_applyOp_lt (ops : List Op) (cursor : Nat)
    (hc : cursor < steps.length) (hops : ∀ op ∈ ops, validOp op = true) :
    ops.foldl applyOp cursor < steps.length := by
  induction ops generalizing cursor with
  | nil => simpa using hc
  | cons op rest ih =>
    simp only [List.foldl_cons]
    exact ih (applyOp cursor op) (applyOp_lt cursor op hc (hops op (by simp)))
      (fun o ho => hops o (by simp [ho]))

/-- C3: from the initial cursor 0, every sequence of UI operations (next
clicks and direct row selections) leaves the active step index within the
bounds of the five-element step sequence. -/
theorem cursor_stays_in_bounds (ops : List Op)
    (hops : ∀ op ∈ ops, validOp op = true) : runOps ops < 5 := by
  have h := foldl_applyOp_lt ops 0 (by simp [steps_length]) hops
  simpa [runOps, steps_length] using h

theorem cursor_stays_in_bounds_witness :
    runOps [Op.next, Op.select 3, Op.next, Op.next] < 5 :=
  cursor_stays_in_bounds [Op.next, Op.select 3, Op.next, Op.next] (by decide)

/-- C4: clicking step row `j` sets the cursor exactly to `j`, whatever the
previous cursor value was. -/
theorem select_sets_cursor (j cursor : Nat) (hj : j < 5) :
    applyOp cursor (Op.select j) = j := rfl

theorem select_sets_cursor_witness : applyOp 17 (Op.select 2) = 2 :=
  select_sets_cursor 2 17 (by decide)

/-- C8: the `nextStep` handler applied five times in a row returns any
active step index (a cursor value within the five-step bounds) to itself. -/
theorem nextStep_five_times_identity (i : Nat) (h : i < 5) :
    nextStepCursor (nextStepCursor (nextStepCursor (nextStepCursor
      (nextStepCursor i)))) = i := by
  interval_cases i <;> rfl

theorem nextStep_five_times_identity_witness :
    nextStepCursor (nextStepCursor (nextStepCursor (nextStepCursor
      (nextStepCursor 2)))) = 2 :=
  nextStep_five_times_identity 2 (by decide)

/-- Full component state of `GLMVisualizer`: the `activeStep` cursor
(`useState(0)`), the `isLoaded` flag surfaced by `useKaTeX`, and the step
descriptor list in scope during the render. -/
structure VisualizerState where
  activeStep : Nat
  isKaTeXLoaded : Bool
  stepList : List Step
deriving Repr, DecidableEq

/-- State on first render: cursor 0, KaTeX not yet loaded, the hardcoded
five-step list. -/
def initVisualizerState : VisualizerState :=
  { activeStep := 0, isKaTeXLoaded := false, stepList := steps }

/-- The `nextStep` handler as a transition on the whole component state:
`setActiveStep` replaces only the cursor. -/
def nextStepState (s : VisualizerState) : VisualizerState :=
  { s with activeStep := (s.activeStep + 1) % s.stepList.length }

/-- The per-row `onClick` handler as a transition on the whole component
state: `setActiveStep(index)` replaces only the cursor. -/
def selectStepState (j : Nat) (s : VisualizerState) : VisualizerState :=
  { s with activeStep := j }

/-- C5: the step sequence is a fixed list of exactly five descriptors whose
ids are 1 through 5 in order, each carrying a title, description, icon and
math string, and neither operation creates, removes or reorders descriptors. -/
theorem steps_fixed_five :
    steps.length = 5 ∧
    steps.map Step.id = [1, 2, 3, 4, 5] ∧
    steps.all (fun st => !st.title.isEmpty && !st.desc.isEmpty &&
      !st.icon.component.isEmpty && !st.math.isEmpty) = true ∧
    (∀ s : VisualizerState, (nextStepState s).stepList = s.stepList) ∧
    (∀ (j : Nat) (s : VisualizerState), (selectStepState j s).stepList = s.stepList) := by
  refine ⟨rfl, rfl, by decide, fun s => rfl, fun j s => rfl⟩

/-- C10: `nextStep` and direct selection modify only the active step cursor;
the descriptor list and the KaTeX-loaded flag (the only other pieces of
component state) are untouched by both operations. -/
theorem operations_frame (s : VisualizerState) (j : Nat) :
    (nextStepState s).stepList = s.stepList ∧
    (nextStepState s).isKaTeXLoaded = s.isKaTeXLoaded ∧
    (selectStepState j s).stepList = s.stepList ∧
    (selectStepState j s).isKaTeXLoaded = s.isKaTeXLoaded ∧
    (selectStepState j s).activeStep = j :=
  ⟨rfl, rfl, rfl, rfl, rfl⟩

/-- Stylesheet URL hardcoded at line 19 of the source. -/
def katexCssHref : String :=
  "https://cdn.jsdelivr.net/npm/katex@0.16.9/dist/katex.min.css"

/-- Script URL hardcoded at line 25 of the source. -/
def katexJsSrc : String :=
  "https://cdn.jsdelivr.net/npm/katex@0.16.9/dist/katex.min.js"

/-- Integrity hash for the stylesheet (line 20). -/
def katexCssIntegrity : String :=
  "sha384-n8MVd4RsNIU0tAv4ct0nTaAbDJwPJzDEaqSD1odI+WdtXRGWt2kTvGFasHpSy3SV"

/-- Integrity hash for the script (line 26). -/
def katexJsIntegrity : String :=
  "sha384-XjKyOOlGwcjNTAIQHIpgOno0Hl1YQqzUOEleOLALmuqehneUG+vnGctmUb0ZY0l8"

/-- A `<link>` element as built by `document.createElement` in `useKaTeX`. -/
structure LinkElem where
  rel : String
  href : String
  integrity : String
  crossOrigin : String
deriving Repr, DecidableEq

/-- A `<script>` element as built by `document.createElement` in `useKaTeX`. -/
structure ScriptElem where
  src : String
  integrity : String
  crossOrigin : String
deriving Repr, DecidableEq

/-- Browser-visible state the `useKaTeX` effect reads and writes:
whether `window.katex` is defined, the script and link elements appended to
`document.head`, and the `isLoaded` flag of the hook. -/
structure DomState where
  katexPresent : Bool
  headLinks : List LinkElem
  headScripts : List ScriptElem
  isLoaded : Bool
deriving Repr, DecidableEq

/-- Body of the `useKaTeX` effect (lines 10-35): if `window.katex` already
exists, set `isLoaded` and return; otherwise append the fixed stylesheet link
and script to `document.head`.  The `isLoaded` flag in the injecting branch is
only set later by the asynchronous `onload` callback of the script, modelled
separately by `scriptOnload`. -/
def useKaTeXEffect (d : DomState) : DomState :=
  if d.katexPresent then
    { d with isLoaded := true }
  else
    { d with
      headLinks := d.headLinks ++
        [{ rel := "stylesheet", href := katexCssHref,
           integrity := katexCssIntegrity, crossOrigin := "anonymous" }],
      headScripts := d.headScripts ++
        [{ src := katexJsSrc, integrity := katexJsIntegrity,
           crossOrigin := "anonymous" }] }

/-- The `script.onload` callback (line 28): `() => setIsLoaded(true)`. -/
def scriptOnload (d : DomState) : DomState :=
  { d with isLoaded := true }

/-- C6: when `window.katex` is already present as the loader effect runs, no
new script or link element is injected into the document head and the loaded
flag is set immediately, so a duplicate load never occurs. -/
theorem no_duplicate_load (d : DomState) (h : d.katexPresent = true) :
    (useKaTeXEffect d).headScripts = d.headScripts ∧
    (useKaTeXEffect d).headLinks = d.headLinks ∧
    (useKaTeXEffect d).isLoaded = true := by
  simp [useKaTeXEffect, h]

theorem no_duplicate_load_witness :
    (useKaTeXEffect ⟨true, [], [], false⟩).headScripts = [] ∧
    (useKaTeXEffect ⟨true, [], [], false⟩).headLinks = [] ∧
    (useKaTeXEffect ⟨true, [], [], false⟩).isLoaded = true :=
  no_duplicate_load ⟨true, [], [], false⟩ rfl

/-- C7: whenever the loader injects, it appends exactly the pinned
katex@0.16.9 jsdelivr script and stylesheet with their integrity hashes; the
appended URLs are the same fixed constants for every starting state. -/
theorem loader_urls_fixed (d : DomState) (h : d.katexPresent = false) :
    (useKaTeXEffect d).headScripts = d.headScripts ++
      [{ src := katexJsSrc, integrity := katexJsIntegrity,
         crossOrigin := "anonymous" }] ∧
    (useKaTeXEffect d).headLinks = d.headLinks ++
      [{ rel := "stylesheet", href := katexCssHref,
         integrity := katexCssIntegrity, crossOrigin := "anonymous" }] := by
  simp [useKaTeXEffect, h]

theorem loader_urls_fixed_witness :
    (useKaTeXEffect ⟨false, [], [], false⟩).headScripts =
      [⟨katexJsSrc, katexJsIntegrity, "anonymous"⟩] ∧
    (useKaTeXEffect ⟨false, [], [], false⟩).headLinks =
      [⟨"stylesheet", katexCssHref, katexCssIntegrity, "anonymous"⟩] := by
  have h := loader_urls_fixed ⟨false, [], [], false⟩ rfl
  simpa using h

/-- Content of the span of the `Latex` component after its effect has had a chance
to run: either the raw LaTeX source string (the JSX child, also the catch
fallback `innerText = children`) or the KaTeX-typeset form of the string. -/
inductive SpanContent where
  | raw (s : String)
  | typeset (s : String)
deriving Repr, DecidableEq

/-- The `Latex` component (lines 43-61) for one render cycle.  The span is
mounted with the raw `children` string; the effect calls
`window.katex.render` only when `isLoaded && window.katex &&
containerRef.current` all hold, replacing the content with the typeset form,
and on a rendering exception the catch block writes the raw string back.
The renderer is abstracted as an oracle that either succeeds or throws.
Returns the resulting span content and whether the render call was made. -/
def latexComponent (isLoaded katexAvailable refAttached : Bool)
    (render : String → Except String Unit) (children : String) :
    SpanContent × Bool :=
  if isLoaded && katexAvailable && refAttached then
    match render children with
    | .ok _ => (.typeset children, true)
    | .error _ => (.raw children, true)
  else
    (.raw children, false)

/-- C2: for every math string and every renderer behaviour, if the render
call throws while rendering the string, the exception is caught locally and
the span content is the raw string itself. -/
theorem render_error_falls_back (render : String → Except String Unit)
    (m e : String) (h : render m = .error e) :
    latexComponent true true true render m = (.raw m, true) := by
  simp [latexComponent, h]

theorem render_error_falls_back_witness :
    latexComponent true true true (fun s => .error "ParseError")
      "\\frac{1}" = (.raw "\\frac{1}", true) :=
  render_error_falls_back (fun s => .error "ParseError") "\\frac{1}"
    "ParseError" rfl

/-- C9: before the library has loaded (the loaded flag false or
`window.katex` undefined), the `Latex` component makes no render call and the
span shows the raw LaTeX source string; typesetting can happen only once both
hold. -/
theorem no_render_before_load (isLoaded katexAvailable refAttached : Bool)
    (render : String → Except String Unit) (children : String)
    (h : isLoaded = false ∨ katexAvailable = false) :
    latexComponent isLoaded katexAvailable refAttached render children =
      (.raw children, false) := by
  rcases h with h | h <;> simp [latexComponent, h]

theorem no_render_before_load_witness :
    latexComponent false true true (fun s => .ok ()) "\\beta^{(0)}" =
      (.raw "\\beta^{(0)}", false) :=
  no_render_before_load false true true (fun s => .ok ()) "\\beta^{(0)}"
    (Or.inl rfl)
